import Mathlib

/-!
Shallow embedding of the priority-submission queue of `tomtom_api`
(`src/tomtom_api/priority_queue` and the thin client in `src/tomtom_api/client.py`).

Conventions of the embedding:
* Wall-clock instants are natural numbers; every operation that calls
  `dt.datetime.now()` receives the current instant as an explicit `now` argument.
  The one exception is the `created_timestamp` default of `QueueItem.__init__`,
  whose Python default expression is evaluated once, when the class body is
  executed at import time; it is modelled by an explicit `import_time` argument
  (see `queueItemInit`).
* `pd.isna` on an optional timestamp is `Option.isNone`.
* Fallible Python methods (those that `raise`) return `Except String _` when no
  mutation precedes the raise, and a `_ × Option _` pair when mutations survive
  the raise (as in `QueueItem.update`, whose sequential field writes are kept
  when the trailing `self.cancel()` raises).
* Side effects whose ordering the specification talks about (setting
  `submitted_ts` before the HTTP call, erasing the payload blob last) are
  recorded as chronological event traces returned next to the updated item.
* The opaque payload (`TomtomJob` subclass instance) is represented by its
  runtime class, which is the only part of it the queue inspects
  (`isinstance` dispatch in `QueueItem.submit`). The file
  `traffic_stats/models/jobs/area.py` is not in the tree; `TomtomAreaJob` is
  modelled from the spec as a class distinct from `TomtomRouteJob` and
  `TomtomTrafficDensityJob` (both of which are defined in the tree and derive
  directly from `TomtomJob`, so neither is an instance of the other).
* The 128-bit content digest that derives `uid` is kept abstract: `uid` is a
  plain string field; only equality of uids matters to the claims.
* The `payload_link` path arithmetic and the JSON blob contents are not
  modelled; blob erasure appears as the `erase_payload` event.
-/

/-- Remote job states, from `traffic_stats/models/status.py` (`TomtomJobState`). -/
inductive TomtomJobState where
  | NEW
  | SCHEDULED
  | MAPMATCHING
  | MAPMATCHED
  | READING_GEOBASE
  | CALCULATIONS
  | NEED_CONFIRMATION
  | DONE
  | ERROR
  | REJECTED
  | CANCELED
  | EXPIRED
deriving DecidableEq, Repr

/-- Queue item statuses, from `priority_queue/models/status.py` (`QueueItemStatus`). -/
inductive QueueItemStatus where
  | IS_WAITING
  | SUBMITTED
  | COMPLETED
  | CANCELED
  | HAS_ERROR
deriving DecidableEq, Repr

/-- Runtime class of the opaque payload object. `TomtomRouteJob` and
`TomtomTrafficDensityJob` are defined in `traffic_stats/models/jobs/` and both
derive directly from `TomtomJob`; `TomtomAreaJob` (file `jobs/area.py`, not in
the tree) is modelled from the spec as the third, distinct job class. -/
inductive JobClass where
  | TomtomRouteJob
  | TomtomAreaJob
  | TomtomTrafficDensityJob
deriving DecidableEq, Repr

/-- Python `payload.__class__.__name__`, with `NoneType` for a missing payload. -/
def pyClassName : Option JobClass → String
  | some JobClass.TomtomRouteJob => "TomtomRouteJob"
  | some JobClass.TomtomAreaJob => "TomtomAreaJob"
  | some JobClass.TomtomTrafficDensityJob => "TomtomTrafficDensityJob"
  | none => "NoneType"

/-- Response of the three submission endpoints
(`TomtomResponseAnalysis` in `traffic_stats/models/responses.py`). -/
structure TomtomResponseAnalysis where
  response_status : String
  messages : List String
  job_id : Int
deriving DecidableEq, Repr

/-- Response of the status endpoint (`TomtomResponseStatus`). -/
structure TomtomResponseStatus where
  job_id : Int
  job_state : TomtomJobState
deriving DecidableEq, Repr

/-- One record of the search envelope (`TomtomJobInfo`); only `job_id` is read
by the daemon. -/
structure TomtomJobInfo where
  job_id : Int
deriving DecidableEq, Repr

/-- Paged search envelope (`TomtomResponseSearchJobs`); the daemon reads
`total_elements` and the `job_id` of each `content` record. -/
structure TomtomResponseSearchJobs where
  content : List TomtomJobInfo
  total_elements : Nat
deriving DecidableEq, Repr

/-- The remote adapter (`TomtomClient` in `client.py`) as the daemon sees it in
one tick: each endpoint is a function of what the code passes to it. The
`status` and `search_jobs` calls go through `TomtomClient.request`, which can
raise (network failure, 403, unparseable 400), modelled by `Except`; the
database read is fallible the same way. The submission endpoints are kept
total: their failure only aborts the admission loop earlier, which the
admission theorems already account for by quantifying over the loop prefix. -/
structure TomtomClient where
  post_job_route_analysis : Option JobClass → TomtomResponseAnalysis
  post_job_area_analysis : Option JobClass → TomtomResponseAnalysis
  status : Option Int → Except String TomtomResponseStatus
  search_jobs : Except String TomtomResponseSearchJobs

/-- A queue item, from `priority_queue/models/queue.py` (`QueueItem`). The
`payload_link` path is not modelled (no claim depends on the path string). -/
structure QueueItem where
  uid : String
  name : String
  report_type : String
  payload : Option JobClass
  priority : Int
  created_timestamp : Nat
  updated_timestamp : Option Nat
  submitted_timestamp : Option Nat
  completed_timestamp : Option Nat
  cancelled_timestamp : Option Nat
  error_timestamp : Option Nat
  tomtom_job_id : Option Int
deriving DecidableEq, Repr

/-- `QueueItem.get_status`: the derived status, computed from the timestamps and
never stored (`queue.py`, lines 247-264). -/
def QueueItem.get_status (i : QueueItem) : QueueItemStatus :=
  if i.error_timestamp.isSome then QueueItemStatus.HAS_ERROR
  else if i.completed_timestamp.isSome then QueueItemStatus.COMPLETED
  else if i.submitted_timestamp.isSome then QueueItemStatus.SUBMITTED
  else if i.cancelled_timestamp.isSome then QueueItemStatus.CANCELED
  else QueueItemStatus.IS_WAITING

/-- `QueueItem.error`: sets `error_timestamp = now` (the message only goes to the
log). -/
def QueueItem.error (now : Nat) (i : QueueItem) : QueueItem :=
  { i with error_timestamp := some now }

/-- `QueueItem.cancel`: requires the WAITING status, then sets
`cancelled_timestamp = now`. -/
def QueueItem.cancel (now : Nat) (i : QueueItem) : Except String QueueItem :=
  if i.get_status ≠ QueueItemStatus.IS_WAITING then
    Except.error "Cannot cancel a job that is not in the WAITING state."
  else
    Except.ok { i with cancelled_timestamp := some now }

/-- Error kinds raised by `QueueItem.update` (all are `ValueError` in the
source; the kinds follow the branch that raises). -/
inductive UpdateError where
  | illegal_transition
  | empty_update
  | illegal_cancel
deriving DecidableEq, Repr

/-- `QueueItem.update` (`queue.py`, lines 112-161). The mutations are applied in
source order; when the trailing `self.cancel()` raises, the earlier mutations
are kept, hence the result is the pair of the post-call item and the raised
error (if any). -/
def QueueItem.update (now : Nat) (name : Option String) (priority : Option Int)
    (cancel : Option Bool) (payload : Option JobClass) (i : QueueItem) :
    QueueItem × Option UpdateError :=
  if i.get_status = QueueItemStatus.COMPLETED ∨ i.get_status = QueueItemStatus.HAS_ERROR
      ∨ i.get_status = QueueItemStatus.SUBMITTED then
    (i, some UpdateError.illegal_transition)
  else if name.isNone && priority.isNone && payload.isNone && cancel.isNone then
    (i, some UpdateError.empty_update)
  else
    let i1 := { i with updated_timestamp := some now }
    let i2 := match name with
      | some nm => { i1 with name := nm }
      | none => i1
    let i3 := match priority with
      | some p => { i2 with priority := p }
      | none => i2
    let i4 := match payload with
      | some pl => { i3 with payload := some pl }
      | none => i3
    match cancel with
    | none => (i4, none)
    | some false => ({ i4 with cancelled_timestamp := none }, none)
    | some true =>
      match QueueItem.cancel now i4 with
      | Except.ok i5 => (i5, none)
      | Except.error _ => (i4, some UpdateError.illegal_cancel)

/-- Chronological events of one `QueueItem.submit` call. -/
inductive SubmitEvent where
  | set_submitted_ts (t : Nat)
  | call_endpoint (cls : JobClass)
  | store_job_id (id : Int)
  | set_error_ts (t : Nat)
deriving DecidableEq, Repr

/-- Shared tail of `QueueItem.submit` after the endpoint has been selected:
set `submitted_timestamp`, perform the remote call, store the returned
`job_id`, and call `error(...)` when the response status tag is `error`. -/
def submitWith (response : TomtomResponseAnalysis) (cls : JobClass) (now : Nat)
    (i : QueueItem) : QueueItem × List SubmitEvent :=
  let i2 := { i with submitted_timestamp := some now, tomtom_job_id := some response.job_id }
  if response.response_status.toLower = "error" then
    ({ i2 with error_timestamp := some now },
      [SubmitEvent.set_submitted_ts now, SubmitEvent.call_endpoint cls,
        SubmitEvent.store_job_id response.job_id, SubmitEvent.set_error_ts now])
  else
    (i2,
      [SubmitEvent.set_submitted_ts now, SubmitEvent.call_endpoint cls,
        SubmitEvent.store_job_id response.job_id])

/-- `QueueItem.submit` (`queue.py`, lines 176-211): requires the WAITING status
and a loaded payload, dispatches on the runtime class of the payload
(`isinstance` checks for `TomtomRouteJob` then `TomtomAreaJob`; any other class
raises), then runs `submitWith`. -/
def QueueItem.submit (client : TomtomClient) (now : Nat) (i : QueueItem) :
    Except String (QueueItem × List SubmitEvent) :=
  if i.get_status ≠ QueueItemStatus.IS_WAITING then
    Except.error "To be submitted, the status of the job should be WAITING."
  else
    match i.payload with
    | none => Except.error "The payload cannot be None for submitting the job."
    | some JobClass.TomtomRouteJob =>
      Except.ok (submitWith (client.post_job_route_analysis i.payload) JobClass.TomtomRouteJob now i)
    | some JobClass.TomtomAreaJob =>
      Except.ok (submitWith (client.post_job_area_analysis i.payload) JobClass.TomtomAreaJob now i)
    | some JobClass.TomtomTrafficDensityJob =>
      Except.error "The report type is not valid."

/-- Chronological events of one `QueueItem.complete` call. -/
inductive CompleteEvent where
  | set_completed_ts (t : Nat)
  | query_status (id : Option Int)
  | set_error_ts (t : Nat)
  | erase_payload
deriving DecidableEq, Repr

/-- `QueueItem.complete` (`queue.py`, lines 221-245): requires the SUBMITTED
status; sets `completed_timestamp = now`, queries the status endpoint for
`tomtom_job_id`, calls `error(...)` when the reported state is not `DONE`, and
erases the payload blob last. -/
def QueueItem.complete (client : TomtomClient) (now : Nat) (i : QueueItem) :
    Except String (QueueItem × List CompleteEvent) :=
  if i.get_status ≠ QueueItemStatus.SUBMITTED then
    Except.error "To be completed, the status of the job should be SUBMITTED."
  else
    let i1 := { i with completed_timestamp := some now }
    match client.status i.tomtom_job_id with
    | Except.error m =>
      -- the raise from `client.status` propagates; the daemon never persists the
      -- in-memory `completed_timestamp` mutation of this aborted call
      Except.error m
    | Except.ok info =>
    if info.job_state ≠ TomtomJobState.DONE then
      Except.ok ({ i1 with error_timestamp := some now },
        [CompleteEvent.set_completed_ts now, CompleteEvent.query_status i.tomtom_job_id,
          CompleteEvent.set_error_ts now, CompleteEvent.erase_payload])
    else
      Except.ok (i1,
        [CompleteEvent.set_completed_ts now, CompleteEvent.query_status i.tomtom_job_id,
          CompleteEvent.erase_payload])

/-- The `QueueItem` constructor (`queue.py`, lines 33-62). Python evaluates the
default expression of `created_timestamp` — `dt.datetime.now().astimezone()` —
once, when the class body is executed at import time; `import_time` is that one
pre-computed instant, used whenever the caller does not pass
`created_timestamp`. `report_type` is overridden by the payload class name when
a payload is present. -/
def queueItemInit (import_time : Nat) (uid name : String) (payload : Option JobClass)
    (priority : Int) (created_timestamp : Option Nat) (report_type : String) : QueueItem :=
  { uid := uid
    name := name
    report_type := match payload with
      | some c => pyClassName (some c)
      | none => report_type
    payload := payload
    priority := priority
    created_timestamp := created_timestamp.getD import_time
    updated_timestamp := none
    submitted_timestamp := none
    completed_timestamp := none
    cancelled_timestamp := none
    error_timestamp := none
    tomtom_job_id := none }

/-- `QueueItem.new` (`queue.py`, lines 64-66): `cls(name, payload, priority)`.
It does not pass `created_timestamp`, so the import-time default is used; the
actual call instant `call_time` is never consulted by the source. The `uid`
stands for the content digest `payload.md5(name)`. -/
def QueueItem.new (import_time _call_time : Nat) (uid name : String)
    (payload : Option JobClass) (priority : Int) : QueueItem :=
  queueItemInit import_time uid name payload priority none ""

/-- One row as `PriorityQueueDB.add` writes it: the item fields with
`report_type` re-derived from the payload class (`database.py`, line 85). -/
def rowOf (i : QueueItem) : QueueItem :=
  { i with report_type := pyClassName i.payload }

/-- `PriorityQueueDB.add` (`database.py`, lines 73-87): append one row; no flush. -/
def PriorityQueueDB.add (df : List QueueItem) (item : QueueItem) : List QueueItem :=
  df ++ [rowOf item]

/-- `drop_duplicates(subset=["uid"], keep="first")`: keep the first occurrence
of every uid, preserving order. -/
def dedupByUid : List QueueItem → List QueueItem
  | [] => []
  | r :: rest => r :: dedupByUid (rest.filter (fun x => decide (x.uid ≠ r.uid)))
termination_by l => l.length
decreasing_by
  simp only [List.length_cons]
  exact Nat.lt_succ_of_le (List.length_filter_le _ _)

/-- `PriorityQueueDB.write` (`database.py`, lines 61-71): re-read the on-disk
table, concatenate the in-memory rows in front of it, drop duplicate uids
keeping the first occurrence, and overwrite the file. The result is the new
file content (equal to the new in-memory table). -/
def PriorityQueueDB.write (df disk : List QueueItem) : List QueueItem :=
  dedupByUid (df ++ disk)

/-- Sort key of `get_next`: `sort_values(["priority", "created_timestamp"],
ascending=[False, True])`, i.e. priority descending then creation ascending. -/
def nextKeyLe (a b : QueueItem) : Bool :=
  decide (b.priority < a.priority) ||
    (decide (a.priority = b.priority) && decide (a.created_timestamp ≤ b.created_timestamp))

/-- The `report_class` dispatch of `QueueItem.from_dict` (`queue.py`, lines
70-75): only the route and area class names are recognised; any other report
type raises. -/
def classOfReportType : String → Option JobClass
  | "TomtomRouteJob" => some JobClass.TomtomRouteJob
  | "TomtomAreaJob" => some JobClass.TomtomAreaJob
  | _ => none

/-- `QueueItem.from_dict` (`queue.py`, lines 68-83) followed by the constructor
(lines 33-62): raises on an unknown report type; loads the payload blob when
the file exists (`blobExists`), else passes `payload = None`; the constructor
then calls `store_payload` whenever the blob file is absent, which on a
non-terminal item with a `None` payload calls `error()` and sets
`error_timestamp = now` (lines 93-99). All other row fields are kept. -/
def QueueItem.from_dict (blobExists : Bool) (now : Nat) (row : QueueItem) :
    Except String QueueItem :=
  match classOfReportType row.report_type with
  | none => Except.error "Unknown report type."
  | some cls =>
    let payload : Option JobClass := if blobExists then some cls else none
    let rt : String := match payload with
      | some c => pyClassName (some c)
      | none => row.report_type
    let i : QueueItem := { row with payload := payload, report_type := rt }
    if blobExists then Except.ok i
    else if i.get_status = QueueItemStatus.COMPLETED ∨ i.get_status = QueueItemStatus.HAS_ERROR then
      Except.ok i
    else
      Except.ok { i with error_timestamp := some now }

/-- The `[QueueItem.from_dict(**row) for row in ...]` comprehension shared by
`get_next` and `get_filtered_items`: reconstruct each row in order; a raise
propagates. `blobs` tells, per uid, whether the payload file exists. -/
def reconstructItems (blobs : String → Bool) (now : Nat) :
    List QueueItem → Except String (List QueueItem)
  | [] => Except.ok []
  | r :: rest =>
    match QueueItem.from_dict (blobs r.uid) now r with
    | Except.error m => Except.error m
    | Except.ok i =>
      match reconstructItems blobs now rest with
      | Except.error m => Except.error m
      | Except.ok tail => Except.ok (i :: tail)

/-- The row selection of `get_next` (`database.py`, lines 107-113): rows with
none of the four transition timestamps set (exactly the WAITING rows), sorted
by the key above, first `n` of them. -/
def nextRows (df : List QueueItem) (n : Nat) : List QueueItem :=
  ((df.filter (fun i => i.submitted_timestamp.isNone && i.completed_timestamp.isNone
      && i.cancelled_timestamp.isNone && i.error_timestamp.isNone)).mergeSort nextKeyLe).take n

/-- `PriorityQueueDB.get_next` (`database.py`, lines 89-114): select and sort
the waiting rows, take `n`, then reconstruct each through
`QueueItem.from_dict` (which can raise, and can surface missing-blob rows as
HAS_ERROR items). -/
def PriorityQueueDB.get_next (blobs : String → Bool) (now : Nat)
    (df : List QueueItem) (n : Nat) : Except String (List QueueItem) :=
  reconstructItems blobs now (nextRows df n)

/-- The in-memory status filter of `get_filtered_items` (`database.py`,
line 180): an empty status list keeps everything, otherwise the projected
status of the reconstructed item must be one of the given ones. -/
def statusFilterPred (status : List QueueItemStatus) (i : QueueItem) : Bool :=
  decide (status.length < 1) || status.any (fun s => decide (i.get_status = s))

/-- `PriorityQueueDB.get_filtered_items` as the daemon calls it (status filter
only, `database.py` lines 116-182): every row of the table is reconstructed
through `QueueItem.from_dict` (line 179; a raise propagates), then the status
filter is applied in memory to the reconstructed items. -/
def PriorityQueueDB.get_filtered_items (blobs : String → Bool) (now : Nat)
    (df : List QueueItem) (status : List QueueItemStatus) :
    Except String (List QueueItem) :=
  match reconstructItems blobs now df with
  | Except.error m => Except.error m
  | Except.ok items => Except.ok (items.filter (statusFilterPred status))

/-- `PriorityQueueDB.update` (`database.py`, lines 184-205): delete the rows
whose uid appears among the given items, then append the items (through `add`). -/
def PriorityQueueDB.update (df : List QueueItem) (items : List QueueItem) : List QueueItem :=
  (df.filter (fun r => !(items.any (fun i => decide (i.uid = r.uid))))) ++ items.map rowOf

/-- `priority_queue_add_job` (`lib.py`, lines 12-32): build the item (the
import-time `created_timestamp` default applies, see `QueueItem.new`), `add` it
to the table, `write`. The result is the new file content. -/
def priority_queue_add_job (import_time call_time : Nat) (uid name : String)
    (payload : Option JobClass) (priority : Int) (df disk : List QueueItem) : List QueueItem :=
  PriorityQueueDB.write
    (PriorityQueueDB.add df (QueueItem.new import_time call_time uid name payload priority)) disk

/-- In-memory dataframe plus on-disk file of the queue store. -/
structure DBState where
  df : List QueueItem
  file : List QueueItem
deriving Repr

/-- `db.update(items, force_write=True)`: delete-and-append, then the
read-modify-merge-write of `PriorityQueueDB.write`; both the dataframe and the
file end up holding the merged table. -/
def DBState.updateFlush (st : DBState) (items : List QueueItem) : DBState :=
  let df1 := PriorityQueueDB.update st.df items
  let merged := PriorityQueueDB.write df1 st.file
  DBState.mk merged merged

/-- `N_CONCURRENT_JOB_IN_PROGRESS` (`traffic_stats/__init__.py`, line 17): the
remote cap `K = 5`. -/
def N_CONCURRENT_JOB_IN_PROGRESS : Nat := 5

/-- What one daemon tick sees of the outside world: the adapter, the result of
re-reading the queue file from disk (`db.read()`), and which payload blob
files exist (per uid) when rows are reconstructed. -/
structure TickEnv where
  client : TomtomClient
  readResult : Except String (List QueueItem)
  blobs : String → Bool

/-- Outcome of one iteration of the daemon loop (`daemon.py`, lines 51-88).
`crashed`: an exception escaped the loop body (it was raised outside the
`try`), so the daemon process exits. `done`: the loop reached its end; `caught`
records the exception, if any, that the catch-all logged at critical level,
`completed` and `submitted` record, in order, the reconciliation and admission
transitions performed. -/
inductive TickResult where
  | crashed (msg : String)
  | done (db : List QueueItem)
      (completed : List (QueueItem × QueueItem × List CompleteEvent))
      (submitted : List (QueueItem × QueueItem × List SubmitEvent))
      (caught : Option String)
deriving Repr

/-- Reconciliation loop body: `item.complete(client)` for each stale item; an
exception aborts the remaining iterations (and the daemon then skips the
persisting `db.update`). -/
def reconcileLoop (client : TomtomClient) (now : Nat) :
    List QueueItem → Except String (List (QueueItem × QueueItem × List CompleteEvent))
  | [] => Except.ok []
  | i :: rest =>
    match QueueItem.complete client now i with
    | Except.error m => Except.error m
    | Except.ok (j, ev) =>
      match reconcileLoop client now rest with
      | Except.error m => Except.error m
      | Except.ok tail => Except.ok ((i, j, ev) :: tail)

/-- Admission loop body (`daemon.py`, lines 81-84): `item.submit(client)` then
`db.update([item], True)` for each candidate, in order; an exception aborts the
remaining iterations but the already flushed submissions stay. -/
def admissionLoop (client : TomtomClient) (now : Nat) :
    DBState → List QueueItem →
      DBState × List (QueueItem × QueueItem × List SubmitEvent) × Option String
  | st, [] => (st, [], none)
  | st, i :: rest =>
    match QueueItem.submit client now i with
    | Except.error m => (st, [], some m)
    | Except.ok (j, ev) =>
      let st1 := st.updateFlush [j]
      let res := admissionLoop client now st1 rest
      (res.1, (i, j, ev) :: res.2.1, res.2.2)

/-- The `tomtom_job_in_progress_ids` local of the tick (`daemon.py`, line 64). -/
def tomtomJobInProgressIds (sj : TomtomResponseSearchJobs) : List Int :=
  sj.content.map TomtomJobInfo.job_id

/-- The `should_be_complete_items` local of the tick (`daemon.py`, lines 65-72):
among the reconstructed items the store projects as SUBMITTED, those whose
`tomtom_job_id` is not among the in-progress remote job ids. -/
def shouldBeCompleteItems (submittedItems : List QueueItem)
    (sj : TomtomResponseSearchJobs) : List QueueItem :=
  submittedItems.filter
    (fun i => !((tomtomJobInProgressIds sj).any (fun a => decide (i.tomtom_job_id = some a))))

/-- Admission pass of a tick (`daemon.py`, lines 80-84), run after the
reconciliation changes were persisted as `st1`: fetch `get_next(k)` (the
reconstruction inside it can raise, which the catch-all records) and submit
the results one by one, flushing after each. -/
def tickAdmission (client : TomtomClient) (blobs : String → Bool) (now : Nat)
    (st1 : DBState) (k : Nat)
    (completed : List (QueueItem × QueueItem × List CompleteEvent)) : TickResult :=
  match PriorityQueueDB.get_next blobs now st1.df k with
  | Except.error m => TickResult.done st1.df completed [] (some m)
  | Except.ok nextItems =>
    let res := admissionLoop client now st1 nextItems
    TickResult.done res.1.df completed res.2.1 res.2.2

/-- Body of the `try` block of one tick after the search succeeded
(`daemon.py`, lines 60-84): when fewer than the cap are active, fetch the
SUBMITTED items (their reconstruction can raise), complete the stale ones and
persist them with one flush, then run the admission pass. Every raise inside
is caught by the tick catch-all (`caught`). -/
def tickBody (client : TomtomClient) (blobs : String → Bool) (now : Nat)
    (rows : List QueueItem) (sj : TomtomResponseSearchJobs) : TickResult :=
  if sj.total_elements < N_CONCURRENT_JOB_IN_PROGRESS then
    match PriorityQueueDB.get_filtered_items blobs now rows [QueueItemStatus.SUBMITTED] with
    | Except.error m => TickResult.done rows [] [] (some m)
    | Except.ok submittedItems =>
      match reconcileLoop client now (shouldBeCompleteItems submittedItems sj) with
      | Except.error m => TickResult.done rows [] [] (some m)
      | Except.ok completed =>
        tickAdmission client blobs now
          ((DBState.mk rows rows).updateFlush (completed.map (fun t => t.2.1)))
          (N_CONCURRENT_JOB_IN_PROGRESS - sj.total_elements) completed
  else TickResult.done rows [] [] none

/-- One iteration of `PriorityQueueDaemon.run` (`daemon.py`, lines 51-88).
`db.read()` happens before the `try` block, so a read failure escapes
(`crashed`); a failing `search_jobs` call raises inside the `try` and is
caught; otherwise the tick body runs. -/
def tick (env : TickEnv) (now : Nat) : TickResult :=
  match env.readResult with
  | Except.error m => TickResult.crashed m
  | Except.ok rows =>
    match env.client.search_jobs with
    | Except.error m => TickResult.done rows [] [] (some m)
    | Except.ok sj => tickBody env.client env.blobs now rows sj

/-- Items submitted during a tick, in submission order (with their traces). -/
def TickResult.submittedList :
    TickResult → List (QueueItem × QueueItem × List SubmitEvent)
  | TickResult.crashed _ => []
  | TickResult.done _ _ s _ => s

/-- Items completed by the reconciliation pass of a tick (with their traces). -/
def TickResult.completedList :
    TickResult → List (QueueItem × QueueItem × List CompleteEvent)
  | TickResult.crashed _ => []
  | TickResult.done _ c _ _ => c

/-- Number of uid-`u` rows in a table. -/
def countUid (df : List QueueItem) (u : String) : Nat :=
  (df.filter (fun r => decide (r.uid = u))).length

/-- Status projection exactly as the table of spec section 3.1 words it, over
the set/unset flags of the four transition timestamps (spec-side definition,
for comparison with `QueueItem.get_status`). -/
def specStatusProjection (error completed submitted cancelled : Bool) : QueueItemStatus :=
  if error then QueueItemStatus.HAS_ERROR
  else if completed then QueueItemStatus.COMPLETED
  else if submitted then QueueItemStatus.SUBMITTED
  else if cancelled then QueueItemStatus.CANCELED
  else QueueItemStatus.IS_WAITING

/-- A dummy adapter with concrete responses, used for concrete evaluations. -/
def clientDummy : TomtomClient :=
  { post_job_route_analysis := fun _ => TomtomResponseAnalysis.mk "OK" ["dummy"] 1
    post_job_area_analysis := fun _ => TomtomResponseAnalysis.mk "OK" ["dummy"] 1
    status := fun _ => Except.ok (TomtomResponseStatus.mk 1 TomtomJobState.DONE)
    search_jobs := Except.ok (TomtomResponseSearchJobs.mk [] 5) }

/-- A freshly created waiting item carrying a traffic-density payload. -/
def itemDensity : QueueItem :=
  { uid := "d1", name := "density", report_type := "TomtomTrafficDensityJob"
    payload := some JobClass.TomtomTrafficDensityJob, priority := 5
    created_timestamp := 0, updated_timestamp := none, submitted_timestamp := none
    completed_timestamp := none, cancelled_timestamp := none, error_timestamp := none
    tomtom_job_id := none }

/-- Response returned by the endpoint that `submit` selects for a payload
class; `none` for the class `submit` refuses to dispatch. -/
def endpointResponse (client : TomtomClient) (payload : Option JobClass) :
    JobClass → Option TomtomResponseAnalysis
  | JobClass.TomtomRouteJob => some (client.post_job_route_analysis payload)
  | JobClass.TomtomAreaJob => some (client.post_job_area_analysis payload)
  | JobClass.TomtomTrafficDensityJob => none

/-- C5. The derived status computed by `QueueItem.get_status` equals, for every
combination of set/unset timestamp fields, the single-valued projection table
of spec section 3.1 (HAS_ERROR, else COMPLETED, else SUBMITTED, else CANCELED,
else IS_WAITING); the structure stores no status field, so the status is only
ever computed. -/
theorem get_status_matches_spec_projection (i : QueueItem) :
    i.get_status = specStatusProjection i.error_timestamp.isSome
      i.completed_timestamp.isSome i.submitted_timestamp.isSome
      i.cancelled_timestamp.isSome := rfl

/-- C7. The code evaluates the `created_timestamp` default once at import time,
so the creation instant of an item is the import-time constant, not the clock
reading at the call: two `priority_queue_add_job` calls one second apart (call
instants 100 and 101, both priority 7) store two rows with identical
`created_timestamp`, refuting strict increase of `created_ts` across creation
instants. -/
theorem created_timestamp_ignores_call_time :
    (∀ (import_time call_time : Nat) (uid name : String)
        (payload : Option JobClass) (priority : Int),
      (QueueItem.new import_time call_time uid name payload priority).created_timestamp
        = import_time) ∧
    ((priority_queue_add_job 50 101 "u2" "second" (some JobClass.TomtomRouteJob) 7
        (priority_queue_add_job 50 100 "u1" "first" (some JobClass.TomtomRouteJob) 7 [] [])
        (priority_queue_add_job 50 100 "u1" "first" (some JobClass.TomtomRouteJob) 7 [] [])).map
      QueueItem.created_timestamp = [50, 50]) ∧
    ¬ ((QueueItem.new 50 100 "u1" "first" (some JobClass.TomtomRouteJob) 7).created_timestamp
        < (QueueItem.new 50 101 "u2" "second" (some JobClass.TomtomRouteJob) 7).created_timestamp) := by
  refine ⟨fun _ _ _ _ _ _ => rfl, ?_, ?_⟩
  · simp [priority_queue_add_job, PriorityQueueDB.write, PriorityQueueDB.add,
      dedupByUid, rowOf, QueueItem.new, queueItemInit, pyClassName]
  · decide

/-- C3 (counterexample). A waiting item with a loaded `TomtomTrafficDensityJob`
payload is not dispatched to any endpoint: `submit` raises instead of calling
the traffic-density endpoint, although the client exposes one. -/
theorem submit_density_counterexample :
    itemDensity.get_status = QueueItemStatus.IS_WAITING ∧
    itemDensity.payload = some JobClass.TomtomTrafficDensityJob ∧
    QueueItem.submit clientDummy 3 itemDensity
      = Except.error "The report type is not valid." :=
  ⟨rfl, rfl, rfl⟩

/-- A freshly created waiting item carrying a route payload. -/
def itemRoute : QueueItem :=
  { uid := "r1", name := "route", report_type := "TomtomRouteJob"
    payload := some JobClass.TomtomRouteJob, priority := 5
    created_timestamp := 0, updated_timestamp := none, submitted_timestamp := none
    completed_timestamp := none, cancelled_timestamp := none, error_timestamp := none
    tomtom_job_id := none }

/-- An item cancelled at instant 1 (status CANCELED). -/
def itemCanceled : QueueItem :=
  { uid := "c1", name := "canceled", report_type := "TomtomRouteJob"
    payload := some JobClass.TomtomRouteJob, priority := 5
    created_timestamp := 0, updated_timestamp := none, submitted_timestamp := none
    completed_timestamp := none, cancelled_timestamp := some 1, error_timestamp := none
    tomtom_job_id := none }

/-- C3 (amended). For a waiting item with a loaded payload whose class is one
of the two that `submit` dispatches (`TomtomRouteJob` to the route-analysis
endpoint, `TomtomAreaJob` to the area-analysis endpoint — traffic-density
payloads are refused, see the counterexample), `submit` sets
`submitted_timestamp = now` before invoking the endpoint, stores the returned
`job_id`, and sets `error_timestamp` exactly when the response status tag is
`error`. -/
theorem submit_route_area_spec (client : TomtomClient) (now : Nat) (i : QueueItem)
    (cls : JobClass) (r : TomtomResponseAnalysis)
    (hw : i.get_status = QueueItemStatus.IS_WAITING)
    (hp : i.payload = some cls)
    (hr : endpointResponse client i.payload cls = some r) :
    ∃ j ev, QueueItem.submit client now i = Except.ok (j, ev) ∧
      j.submitted_timestamp = some now ∧
      j.tomtom_job_id = some r.job_id ∧
      (j.error_timestamp.isSome ↔ r.response_status.toLower = "error") ∧
      ev.take 2 = [SubmitEvent.set_submitted_ts now, SubmitEvent.call_endpoint cls] ∧
      SubmitEvent.store_job_id r.job_id ∈ ev := by
  have hen : i.error_timestamp = none := by
    cases h : i.error_timestamp with
    | none => rfl
    | some t => simp [QueueItem.get_status, h] at hw
  cases cls with
  | TomtomTrafficDensityJob => simp [endpointResponse] at hr
  | TomtomRouteJob =>
    simp only [endpointResponse, Option.some.injEq] at hr
    subst hr
    rw [hp]
    by_cases hE : (client.post_job_route_analysis (some JobClass.TomtomRouteJob)).response_status.toLower = "error"
    · have hred : QueueItem.submit client now i =
        Except.ok (Prod.mk
          { i with submitted_timestamp := some now, tomtom_job_id := some (client.post_job_route_analysis (some JobClass.TomtomRouteJob)).job_id, error_timestamp := some now }
          [SubmitEvent.set_submitted_ts now, SubmitEvent.call_endpoint JobClass.TomtomRouteJob,
            SubmitEvent.store_job_id (client.post_job_route_analysis (some JobClass.TomtomRouteJob)).job_id,
            SubmitEvent.set_error_ts now]) := by
        simp [QueueItem.submit, hw, hp, submitWith, hE]
      exact ⟨_, _, hred, rfl, rfl, by simp [hE], rfl, by simp⟩
    · have hred : QueueItem.submit client now i =
        Except.ok (Prod.mk
          { i with submitted_timestamp := some now, tomtom_job_id := some (client.post_job_route_analysis (some JobClass.TomtomRouteJob)).job_id }
          [SubmitEvent.set_submitted_ts now, SubmitEvent.call_endpoint JobClass.TomtomRouteJob,
            SubmitEvent.store_job_id (client.post_job_route_analysis (some JobClass.TomtomRouteJob)).job_id]) := by
        simp [QueueItem.submit, hw, hp, submitWith, hE]
      exact ⟨_, _, hred, rfl, rfl, by simp [hen, hE], rfl, by simp⟩
  | TomtomAreaJob =>
    simp only [endpointResponse, Option.some.injEq] at hr
    subst hr
    rw [hp]
    by_cases hE : (client.post_job_area_analysis (some JobClass.TomtomAreaJob)).response_status.toLower = "error"
    · have hred : QueueItem.submit client now i =
        Except.ok (Prod.mk
          { i with submitted_timestamp := some now, tomtom_job_id := some (client.post_job_area_analysis (some JobClass.TomtomAreaJob)).job_id, error_timestamp := some now }
          [SubmitEvent.set_submitted_ts now, SubmitEvent.call_endpoint JobClass.TomtomAreaJob,
            SubmitEvent.store_job_id (client.post_job_area_analysis (some JobClass.TomtomAreaJob)).job_id,
            SubmitEvent.set_error_ts now]) := by
        simp [QueueItem.submit, hw, hp, submitWith, hE]
      exact ⟨_, _, hred, rfl, rfl, by simp [hE], rfl, by simp⟩
    · have hred : QueueItem.submit client now i =
        Except.ok (Prod.mk
          { i with submitted_timestamp := some now, tomtom_job_id := some (client.post_job_area_analysis (some JobClass.TomtomAreaJob)).job_id }
          [SubmitEvent.set_submitted_ts now, SubmitEvent.call_endpoint JobClass.TomtomAreaJob,
            SubmitEvent.store_job_id (client.post_job_area_analysis (some JobClass.TomtomAreaJob)).job_id]) := by
        simp [QueueItem.submit, hw, hp, submitWith, hE]
      exact ⟨_, _, hred, rfl, rfl, by simp [hen, hE], rfl, by simp⟩

/-- Witness for `submit_route_area_spec`: concrete waiting route item submitted
against the dummy adapter. -/
theorem submit_route_area_spec_witness :
    ∃ j ev, QueueItem.submit clientDummy 4 itemRoute = Except.ok (j, ev) ∧
      j.submitted_timestamp = some 4 ∧
      j.tomtom_job_id = some (TomtomResponseAnalysis.mk "OK" ["dummy"] 1).job_id ∧
      (j.error_timestamp.isSome ↔
        (TomtomResponseAnalysis.mk "OK" ["dummy"] 1).response_status.toLower = "error") ∧
      ev.take 2 = [SubmitEvent.set_submitted_ts 4, SubmitEvent.call_endpoint JobClass.TomtomRouteJob] ∧
      SubmitEvent.store_job_id (TomtomResponseAnalysis.mk "OK" ["dummy"] 1).job_id ∈ ev :=
  submit_route_area_spec clientDummy 4 itemRoute JobClass.TomtomRouteJob
    (TomtomResponseAnalysis.mk "OK" ["dummy"] 1) rfl rfl rfl

/-- C8 (counterexample). An item in the CANCELED status with an argument
provided (`cancel=true`): the claim says such an update succeeds, but the
internal `cancel()` step requires the WAITING status and raises, so `update`
fails. -/
theorem update_cancel_on_canceled_counterexample :
    itemCanceled.get_status = QueueItemStatus.CANCELED ∧
    (QueueItem.update 9 none none (some true) none itemCanceled).2
      = some UpdateError.illegal_cancel :=
  ⟨rfl, rfl⟩

set_option maxHeartbeats 3200000 in
/-- C8 (amended). `update` succeeds exactly when the status is IS_WAITING or
CANCELED, at least one argument is provided, and the call is not
`cancel=true` on a CANCELED item (that combination raises from the inner
`cancel()`); on success `updated_timestamp = now`, `cancel=true` sets
`cancelled_timestamp = now` and `cancel=false` clears it; the statuses
SUBMITTED, COMPLETED and HAS_ERROR fail with the illegal-transition error and
an argument-less call on an updatable item fails with the empty-update error. -/
theorem update_success_iff (now : Nat) (nm : Option String) (pr : Option Int)
    (ca : Option Bool) (pl : Option JobClass) (i : QueueItem) :
    ((QueueItem.update now nm pr ca pl i).2 = none ↔
      ((i.get_status = QueueItemStatus.IS_WAITING ∨ i.get_status = QueueItemStatus.CANCELED)
        ∧ (nm.isSome ∨ pr.isSome ∨ ca.isSome ∨ pl.isSome)
        ∧ ¬ (ca = some true ∧ i.get_status = QueueItemStatus.CANCELED))) ∧
    ((QueueItem.update now nm pr ca pl i).2 = none →
      (QueueItem.update now nm pr ca pl i).1.updated_timestamp = some now
      ∧ (ca = some true → (QueueItem.update now nm pr ca pl i).1.cancelled_timestamp = some now)
      ∧ (ca = some false → (QueueItem.update now nm pr ca pl i).1.cancelled_timestamp = none)) ∧
    ((i.get_status = QueueItemStatus.SUBMITTED ∨ i.get_status = QueueItemStatus.COMPLETED
        ∨ i.get_status = QueueItemStatus.HAS_ERROR) →
      (QueueItem.update now nm pr ca pl i).2 = some UpdateError.illegal_transition) ∧
    (nm = none → pr = none → ca = none → pl = none →
      (i.get_status = QueueItemStatus.IS_WAITING ∨ i.get_status = QueueItemStatus.CANCELED) →
      (QueueItem.update now nm pr ca pl i).2 = some UpdateError.empty_update) := by
  obtain ⟨uid0, name0, rt0, pl0, pr0, cts0, uts0, sts0, cots0, cats0, ets0, jid0⟩ := i
  rcases ets0 with _ | et <;> rcases cots0 with _ | ct <;> rcases sts0 with _ | st <;>
    rcases cats0 with _ | cc <;>
    rcases nm with _ | nmv <;> rcases pr with _ | prv <;> rcases pl with _ | plv <;>
    rcases ca with _ | cb <;> (try rcases cb) <;>
    simp_all [QueueItem.update, QueueItem.cancel, QueueItem.get_status]

/-- Witness for `update_success_iff`: renaming a waiting item succeeds. -/
theorem update_success_iff_witness :
    ((QueueItem.update 7 (some "renamed") none none none itemRoute).2 = none ↔
      ((itemRoute.get_status = QueueItemStatus.IS_WAITING
          ∨ itemRoute.get_status = QueueItemStatus.CANCELED)
        ∧ ((some "renamed" : Option String).isSome ∨ (none : Option Int).isSome
            ∨ (none : Option Bool).isSome ∨ (none : Option JobClass).isSome)
        ∧ ¬ ((none : Option Bool) = some true
            ∧ itemRoute.get_status = QueueItemStatus.CANCELED))) ∧
    ((QueueItem.update 7 (some "renamed") none none none itemRoute).2 = none →
      (QueueItem.update 7 (some "renamed") none none none itemRoute).1.updated_timestamp = some 7
      ∧ ((none : Option Bool) = some true →
          (QueueItem.update 7 (some "renamed") none none none itemRoute).1.cancelled_timestamp = some 7)
      ∧ ((none : Option Bool) = some false →
          (QueueItem.update 7 (some "renamed") none none none itemRoute).1.cancelled_timestamp = none)) ∧
    ((itemRoute.get_status = QueueItemStatus.SUBMITTED
        ∨ itemRoute.get_status = QueueItemStatus.COMPLETED
        ∨ itemRoute.get_status = QueueItemStatus.HAS_ERROR) →
      (QueueItem.update 7 (some "renamed") none none none itemRoute).2
        = some UpdateError.illegal_transition) ∧
    ((some "renamed" : Option String) = none → (none : Option Int) = none
      → (none : Option Bool) = none → (none : Option JobClass) = none →
      (itemRoute.get_status = QueueItemStatus.IS_WAITING
        ∨ itemRoute.get_status = QueueItemStatus.CANCELED) →
      (QueueItem.update 7 (some "renamed") none none none itemRoute).2
        = some UpdateError.empty_update) :=
  update_success_iff 7 (some "renamed") none none none itemRoute

set_option maxHeartbeats 1600000 in
/-- C10. Calling `update` with `cancel=true` (possibly together with new name,
priority or payload values) on a CANCELED item fails from the inner `cancel()`
step, yet the mutations made before that step — `updated_timestamp` and the
name, priority and payload changes of the same call — remain applied; the
cancelled timestamp is untouched. -/
theorem update_no_rollback (now : Nat) (nm : Option String) (pr : Option Int)
    (pl : Option JobClass) (i : QueueItem)
    (hs : i.get_status = QueueItemStatus.CANCELED) :
    (QueueItem.update now nm pr (some true) pl i).2 = some UpdateError.illegal_cancel ∧
    (QueueItem.update now nm pr (some true) pl i).1.updated_timestamp = some now ∧
    (∀ s, nm = some s → (QueueItem.update now nm pr (some true) pl i).1.name = s) ∧
    (∀ p, pr = some p → (QueueItem.update now nm pr (some true) pl i).1.priority = p) ∧
    (∀ c, pl = some c → (QueueItem.update now nm pr (some true) pl i).1.payload = some c) ∧
    (QueueItem.update now nm pr (some true) pl i).1.cancelled_timestamp = i.cancelled_timestamp := by
  obtain ⟨uid0, name0, rt0, pl0, pr0, cts0, uts0, sts0, cots0, cats0, ets0, jid0⟩ := i
  rcases ets0 with _ | et <;> rcases cots0 with _ | ct <;> rcases sts0 with _ | st <;>
    rcases cats0 with _ | cc <;>
    rcases nm with _ | nmv <;> rcases pr with _ | prv <;> rcases pl with _ | plv <;>
    simp_all [QueueItem.update, QueueItem.cancel, QueueItem.get_status]

/-- Witness for `update_no_rollback`: a CANCELED item updated with a new name
and `cancel=true` keeps the new name and the fresh `updated_timestamp` even
though the call fails. -/
theorem update_no_rollback_witness :
    (QueueItem.update 9 (some "kept") none (some true) none itemCanceled).2
      = some UpdateError.illegal_cancel ∧
    (QueueItem.update 9 (some "kept") none (some true) none itemCanceled).1.updated_timestamp
      = some 9 ∧
    (∀ s, (some "kept" : Option String) = some s →
      (QueueItem.update 9 (some "kept") none (some true) none itemCanceled).1.name = s) ∧
    (∀ p, (none : Option Int) = some p →
      (QueueItem.update 9 (some "kept") none (some true) none itemCanceled).1.priority = p) ∧
    (∀ c, (none : Option JobClass) = some c →
      (QueueItem.update 9 (some "kept") none (some true) none itemCanceled).1.payload = some c) ∧
    (QueueItem.update 9 (some "kept") none (some true) none itemCanceled).1.cancelled_timestamp
      = itemCanceled.cancelled_timestamp :=
  update_no_rollback 9 (some "kept") none none itemCanceled rfl

/-- Filtering away another uid does not change which row `find?` sees first. -/
theorem find?_filter_other_uid (u v : String) (huv : u ≠ v) (l : List QueueItem) :
    (l.filter (fun x => decide (x.uid ≠ v))).find? (fun r => decide (r.uid = u))
      = l.find? (fun r => decide (r.uid = u)) := by
  induction l with
  | nil => rfl
  | cons a t ih =>
    by_cases h : a.uid = v
    · have h1 : ¬ ((fun x : QueueItem => decide (x.uid ≠ v)) a = true) := by simp [h]
      have h2 : ¬ ((fun r : QueueItem => decide (r.uid = u)) a = true) := by
        simp only [decide_eq_true_eq]
        rw [h]
        exact fun hh => huv hh.symm
      rw [@List.filter_cons_of_neg QueueItem (fun x => decide (x.uid ≠ v)) a t h1,
        @List.find?_cons_of_neg QueueItem (fun r => decide (r.uid = u)) a t h2, ih]
    · by_cases h2 : a.uid = u
      · have h1 : (fun x : QueueItem => decide (x.uid ≠ v)) a = true := by simp [h]
        have h3 : (fun r : QueueItem => decide (r.uid = u)) a = true := by simp [h2]
        rw [@List.filter_cons_of_pos QueueItem (fun x => decide (x.uid ≠ v)) a t h1,
          @List.find?_cons_of_pos QueueItem (fun r => decide (r.uid = u)) a
            (t.filter (fun x => decide (x.uid ≠ v))) h3,
          @List.find?_cons_of_pos QueueItem (fun r => decide (r.uid = u)) a t h3]
      · have h1 : (fun x : QueueItem => decide (x.uid ≠ v)) a = true := by simp [h]
        have h3 : ¬ ((fun r : QueueItem => decide (r.uid = u)) a = true) := by simp [h2]
        rw [@List.filter_cons_of_pos QueueItem (fun x => decide (x.uid ≠ v)) a t h1,
          @List.find?_cons_of_neg QueueItem (fun r => decide (r.uid = u)) a
            (t.filter (fun x => decide (x.uid ≠ v))) h3,
          @List.find?_cons_of_neg QueueItem (fun r => decide (r.uid = u)) a t h3, ih]

/-- Deduplication keeps, for every uid, the first-occurring row. -/
theorem find?_dedupByUid (l : List QueueItem) (u : String) :
    (dedupByUid l).find? (fun r => decide (r.uid = u))
      = l.find? (fun r => decide (r.uid = u)) := by
  induction l using dedupByUid.induct with
  | case1 => rw [dedupByUid]
  | case2 r rest ih =>
    rw [dedupByUid]
    by_cases h : r.uid = u
    · have h3 : (fun x : QueueItem => decide (x.uid = u)) r = true := by simp [h]
      rw [@List.find?_cons_of_pos QueueItem (fun x => decide (x.uid = u)) r
          (dedupByUid (rest.filter (fun x => decide (x.uid ≠ r.uid)))) h3,
        @List.find?_cons_of_pos QueueItem (fun x => decide (x.uid = u)) r rest h3]
    · have hne : u ≠ r.uid := fun hh => h hh.symm
      have h3 : ¬ ((fun x : QueueItem => decide (x.uid = u)) r = true) := by simp [h]
      rw [@List.find?_cons_of_neg QueueItem (fun x => decide (x.uid = u)) r
          (dedupByUid (rest.filter (fun x => decide (x.uid ≠ r.uid)))) h3,
        @List.find?_cons_of_neg QueueItem (fun x => decide (x.uid = u)) r rest h3, ih,
        find?_filter_other_uid u r.uid hne rest]

/-- Count of a uid on a cons cell. -/
theorem countUid_cons (a : QueueItem) (t : List QueueItem) (u : String) :
    countUid (a :: t) u = (if a.uid = u then 1 else 0) + countUid t u := by
  by_cases h : a.uid = u <;> simp [countUid, List.filter_cons, h, Nat.add_comm]

/-- After deduplication every uid present in the input appears exactly once. -/
theorem countUid_dedupByUid (l : List QueueItem) (u : String) :
    countUid (dedupByUid l) u = if (∃ r ∈ l, r.uid = u) then 1 else 0 := by
  induction l using dedupByUid.induct with
  | case1 => simp [dedupByUid, countUid]
  | case2 r rest ih =>
    rw [dedupByUid, countUid_cons, ih]
    by_cases h : r.uid = u
    · have hzero : ¬ ∃ x ∈ rest.filter (fun x => decide (x.uid ≠ r.uid)), x.uid = u := by
        rintro ⟨x, hx, hxu⟩
        have hk := (List.mem_filter.mp hx).2
        simp only [decide_eq_true_eq] at hk
        exact hk (hxu.trans h.symm)
      have hex : ∃ x ∈ r :: rest, x.uid = u := ⟨r, List.mem_cons_self r rest, h⟩
      rw [if_pos h, if_neg hzero, if_pos hex]
    · have hiff : (∃ x ∈ rest.filter (fun x => decide (x.uid ≠ r.uid)), x.uid = u)
        ↔ (∃ x ∈ r :: rest, x.uid = u) := by
        constructor
        · rintro ⟨x, hx, hxu⟩
          exact ⟨x, List.mem_cons_of_mem r (List.mem_filter.mp hx).1, hxu⟩
        · rintro ⟨x, hx, hxu⟩
          rcases List.mem_cons.mp hx with rfl | hxr
          · exact absurd hxu h
          · refine ⟨x, List.mem_filter.mpr ⟨hxr, ?_⟩, hxu⟩
            simp only [decide_eq_true_eq]
            intro hxe
            exact h (hxe ▸ hxu)
      rw [if_neg h, Nat.zero_add]
      by_cases hc : ∃ x ∈ r :: rest, x.uid = u
      · rw [if_pos (hiff.mpr hc), if_pos hc]
      · rw [if_neg (fun hh => hc (hiff.mp hh)), if_neg hc]

/-- C9. `write` re-reads the on-disk table, unions it with the in-memory rows
keeping the first occurrence per uid, and overwrites the file; consequently,
after `add(x); add(x)` followed by a flush, the store contains exactly one row
with `uid(x)` — and in general the kept row for any uid is the first-occurring
one of the merged table. -/
theorem write_after_double_add (df disk : List QueueItem) (x : QueueItem) :
    countUid (PriorityQueueDB.write
      (PriorityQueueDB.add (PriorityQueueDB.add df x) x) disk) x.uid = 1 ∧
    ∀ (l : List QueueItem) (u : String),
      (dedupByUid l).find? (fun r => decide (r.uid = u))
        = l.find? (fun r => decide (r.uid = u)) := by
  refine ⟨?_, find?_dedupByUid⟩
  rw [PriorityQueueDB.write, countUid_dedupByUid]
  have hmem : rowOf x ∈ PriorityQueueDB.add (PriorityQueueDB.add df x) x ++ disk := by
    simp [PriorityQueueDB.add]
  have hex : ∃ r ∈ PriorityQueueDB.add (PriorityQueueDB.add df x) x ++ disk,
      r.uid = x.uid := ⟨rowOf x, hmem, rfl⟩
  rw [if_pos hex]

/-- The `get_next` sort key is transitive. -/
theorem nextKeyLe_trans (a b c : QueueItem) (hab : nextKeyLe a b = true)
    (hbc : nextKeyLe b c = true) : nextKeyLe a c = true := by
  simp only [nextKeyLe, Bool.or_eq_true, Bool.and_eq_true, decide_eq_true_eq] at hab hbc ⊢
  omega

/-- The `get_next` sort key is total. -/
theorem nextKeyLe_total (a b : QueueItem) :
    (nextKeyLe a b || nextKeyLe b a) = true := by
  simp only [nextKeyLe, Bool.or_eq_true, Bool.and_eq_true, decide_eq_true_eq]
  omega


/-- `get_next` selects at most `n` rows. -/
theorem nextRows_length (df : List QueueItem) (n : Nat) :
    (nextRows df n).length ≤ n := by
  rw [nextRows]
  exact List.length_take_le n _

/-- Every row selected by `get_next` has all four transition timestamps unset. -/
theorem nextRows_waiting (df : List QueueItem) (n : Nat) :
    ∀ r ∈ nextRows df n,
      r.submitted_timestamp = none ∧ r.completed_timestamp = none ∧
      r.cancelled_timestamp = none ∧ r.error_timestamp = none := by
  intro r hr
  rw [nextRows] at hr
  have h1 := List.mem_of_mem_take hr
  have h2 := ((List.mergeSort_perm _ nextKeyLe).mem_iff).mp h1
  have h3 := (List.mem_filter.mp h2).2
  simp only [Bool.and_eq_true, Option.isNone_iff_eq_none] at h3
  exact ⟨h3.1.1.1, h3.1.1.2, h3.1.2, h3.2⟩

/-- The selected rows are sorted by priority descending, creation ascending. -/
theorem nextRows_sorted (df : List QueueItem) (n : Nat) :
    (nextRows df n).Pairwise (fun a b => nextKeyLe a b = true) := by
  rw [nextRows]
  exact List.Pairwise.sublist (List.take_sublist _ _)
    (List.sorted_mergeSort nextKeyLe_trans nextKeyLe_total _)

/-- Closed form of `QueueItem.from_dict` used by the proofs. -/
theorem from_dict_eq (b : Bool) (now : Nat) (r : QueueItem) :
    QueueItem.from_dict b now r =
      match classOfReportType r.report_type with
      | none => Except.error "Unknown report type."
      | some cls =>
        if b then Except.ok { r with payload := some cls, report_type := pyClassName (some cls) }
        else if r.get_status = QueueItemStatus.COMPLETED
            ∨ r.get_status = QueueItemStatus.HAS_ERROR then
          Except.ok { r with payload := none }
        else Except.ok { r with payload := none, error_timestamp := some now } := by
  rw [QueueItem.from_dict]
  cases classOfReportType r.report_type with
  | none => rfl
  | some cls => cases b <;> rfl

/-- Reconstruction keeps the key row fields. -/
theorem from_dict_preserves_key (b : Bool) (now : Nat) (r i : QueueItem)
    (h : QueueItem.from_dict b now r = Except.ok i) :
    i.uid = r.uid ∧ i.priority = r.priority ∧ i.created_timestamp = r.created_timestamp := by
  rw [from_dict_eq] at h
  cases hcls : classOfReportType r.report_type with
  | none => simp only [hcls] at h; simp at h
  | some cls =>
    simp only [hcls] at h
    by_cases hb : b = true
    · rw [if_pos hb] at h
      obtain rfl := (Except.ok.inj h).symm
      exact ⟨rfl, rfl, rfl⟩
    · rw [if_neg hb] at h
      split at h
      · obtain rfl := (Except.ok.inj h).symm
        exact ⟨rfl, rfl, rfl⟩
      · obtain rfl := (Except.ok.inj h).symm
        exact ⟨rfl, rfl, rfl⟩

/-- A waiting row reconstructs to IS_WAITING when its blob exists, and to
HAS_ERROR (via `store_payload`'s `error()` call) when the blob is missing. -/
theorem from_dict_waiting_status (b : Bool) (now : Nat) (r i : QueueItem)
    (h : QueueItem.from_dict b now r = Except.ok i)
    (hs : r.submitted_timestamp = none) (hc : r.completed_timestamp = none)
    (hca : r.cancelled_timestamp = none) (he : r.error_timestamp = none) :
    i.get_status
      = (if b then QueueItemStatus.IS_WAITING else QueueItemStatus.HAS_ERROR) := by
  have hrst : r.get_status = QueueItemStatus.IS_WAITING := by
    simp [QueueItem.get_status, hs, hc, hca, he]
  rw [from_dict_eq] at h
  cases hcls : classOfReportType r.report_type with
  | none => simp only [hcls] at h; simp at h
  | some cls =>
    simp only [hcls] at h
    by_cases hb : b = true
    · rw [if_pos hb] at h
      obtain rfl := (Except.ok.inj h).symm
      rw [if_pos hb]
      simp [QueueItem.get_status, hs, hc, hca, he]
    · have hcond : ¬ (r.get_status = QueueItemStatus.COMPLETED
          ∨ r.get_status = QueueItemStatus.HAS_ERROR) := by
        rw [hrst]; simp
      rw [if_neg hb, if_neg hcond] at h
      obtain rfl := (Except.ok.inj h).symm
      rw [if_neg hb]
      simp [QueueItem.get_status]

/-- A successful reconstruction relates rows and items pointwise, in order. -/
theorem reconstructItems_forall₂ (blobs : String → Bool) (now : Nat) :
    ∀ (l out : List QueueItem), reconstructItems blobs now l = Except.ok out →
      List.Forall₂ (fun r i => QueueItem.from_dict (blobs r.uid) now r = Except.ok i) l out := by
  intro l
  induction l with
  | nil =>
    intro out h
    simp only [reconstructItems] at h
    obtain rfl := Except.ok.inj h
    exact List.Forall₂.nil
  | cons r rest ih =>
    intro out h
    simp only [reconstructItems] at h
    cases hfd : QueueItem.from_dict (blobs r.uid) now r with
    | error m => simp only [hfd] at h; simp at h
    | ok i =>
      simp only [hfd] at h
      cases hrec : reconstructItems blobs now rest with
      | error m => simp only [hrec] at h; simp at h
      | ok tail =>
        simp only [hrec] at h
        obtain rfl := Except.ok.inj h
        exact List.Forall₂.cons hfd (ih tail hrec)

/-- When every row reconstructs, the comprehension succeeds as a whole. -/
theorem reconstructItems_ok_of_all (blobs : String → Bool) (now : Nat) :
    ∀ (l : List QueueItem),
      (∀ r ∈ l, ∃ i, QueueItem.from_dict (blobs r.uid) now r = Except.ok i) →
      ∃ out, reconstructItems blobs now l = Except.ok out := by
  intro l
  induction l with
  | nil => intro _; exact ⟨[], rfl⟩
  | cons r rest ih =>
    intro hall
    obtain ⟨i, hi⟩ := hall r (List.mem_cons_self r rest)
    obtain ⟨tail, htail⟩ := ih (fun x hx => hall x (List.mem_cons_of_mem r hx))
    exact ⟨i :: tail, by simp [reconstructItems, hi, htail]⟩

/-- A left member of a pointwise relation has a related right member. -/
theorem forall₂_mem_left {α β : Type} {R : α → β → Prop} {l₁ : List α} {l₂ : List β}
    (h : List.Forall₂ R l₁ l₂) : ∀ x ∈ l₁, ∃ y ∈ l₂, R x y := by
  induction h with
  | nil => intro x hx; cases hx
  | cons hr ht ih =>
    intro x hx
    rcases List.mem_cons.mp hx with rfl | hx2
    · exact ⟨_, List.mem_cons_self _ _, hr⟩
    · obtain ⟨y, hy, hxy⟩ := ih x hx2
      exact ⟨y, List.mem_cons_of_mem _ hy, hxy⟩

/-- A right member of a pointwise relation has a related left member. -/
theorem forall₂_mem_right {α β : Type} {R : α → β → Prop} {l₁ : List α} {l₂ : List β}
    (h : List.Forall₂ R l₁ l₂) : ∀ y ∈ l₂, ∃ x ∈ l₁, R x y := by
  induction h with
  | nil => intro y hy; cases hy
  | cons hr ht ih =>
    intro y hy
    rcases List.mem_cons.mp hy with rfl | hy2
    · exact ⟨_, List.mem_cons_self _ _, hr⟩
    · obtain ⟨x, hx, hxy⟩ := ih y hy2
      exact ⟨x, List.mem_cons_of_mem _ hx, hxy⟩

/-- The sort key only reads priority and creation instant. -/
theorem nextKeyLe_congr (a a2 b b2 : QueueItem) (hpa : a.priority = a2.priority)
    (hca : a.created_timestamp = a2.created_timestamp) (hpb : b.priority = b2.priority)
    (hcb : b.created_timestamp = b2.created_timestamp) :
    nextKeyLe a b = nextKeyLe a2 b2 := by
  simp [nextKeyLe, hpa, hca, hpb, hcb]

/-- Reconstruction preserves the `get_next` sort order. -/
theorem pairwise_nextKey_of_forall₂ (blobs : String → Bool) (now : Nat)
    {l out : List QueueItem}
    (h : List.Forall₂ (fun r i => QueueItem.from_dict (blobs r.uid) now r = Except.ok i) l out) :
    l.Pairwise (fun a b => nextKeyLe a b = true) →
    out.Pairwise (fun a b => nextKeyLe a b = true) := by
  induction h with
  | nil => intro _; exact List.Pairwise.nil
  | cons hr ht ih =>
    intro hp
    rcases List.pairwise_cons.mp hp with ⟨hhead, htail⟩
    refine List.pairwise_cons.mpr ⟨?_, ih htail⟩
    intro y hy
    obtain ⟨x, hx, hxy⟩ := forall₂_mem_right ht y hy
    obtain ⟨-, hpa, hca⟩ := from_dict_preserves_key _ now _ _ hr
    obtain ⟨-, hpb, hcb⟩ := from_dict_preserves_key _ now _ _ hxy
    rw [nextKeyLe_congr _ _ _ _ hpa hca hpb hcb]
    exact hhead x hx

/-- A successful `get_next` returns at most `n` items. -/
theorem get_next_ok_length (blobs : String → Bool) (now : Nat) (df : List QueueItem)
    (n : Nat) (out : List QueueItem)
    (h : PriorityQueueDB.get_next blobs now df n = Except.ok out) : out.length ≤ n := by
  rw [PriorityQueueDB.get_next] at h
  have hlen := List.Forall₂.length_eq (reconstructItems_forall₂ blobs now _ _ h)
  rw [← hlen]
  exact nextRows_length df n

/-- A successful `get_next` is sorted by the priority/creation key. -/
theorem get_next_ok_sorted (blobs : String → Bool) (now : Nat) (df : List QueueItem)
    (n : Nat) (out : List QueueItem)
    (h : PriorityQueueDB.get_next blobs now df n = Except.ok out) :
    out.Pairwise (fun a b => nextKeyLe a b = true) := by
  rw [PriorityQueueDB.get_next] at h
  exact pairwise_nextKey_of_forall₂ blobs now
    (reconstructItems_forall₂ blobs now _ _ h) (nextRows_sorted df n)

/-- Each item of a successful `get_next` projects IS_WAITING when its payload
blob exists and HAS_ERROR when the blob is missing. -/
theorem get_next_ok_status (blobs : String → Bool) (now : Nat) (df : List QueueItem)
    (n : Nat) (out : List QueueItem)
    (h : PriorityQueueDB.get_next blobs now df n = Except.ok out) :
    ∀ i ∈ out, i.get_status
      = (if blobs i.uid then QueueItemStatus.IS_WAITING else QueueItemStatus.HAS_ERROR) := by
  intro i hi
  rw [PriorityQueueDB.get_next] at h
  obtain ⟨r, hr, hri⟩ := forall₂_mem_right (reconstructItems_forall₂ blobs now _ _ h) i hi
  obtain ⟨hs, hc, hca, he⟩ := nextRows_waiting df n r hr
  obtain ⟨huid, -, -⟩ := from_dict_preserves_key (blobs r.uid) now r i hri
  rw [huid]
  exact from_dict_waiting_status (blobs r.uid) now r i hri hs hc hca he

/-- A successful table reconstruction determines `get_filtered_items`. -/
theorem get_filtered_items_ok (blobs : String → Bool) (now : Nat) (df : List QueueItem)
    (status : List QueueItemStatus) (items : List QueueItem)
    (h : reconstructItems blobs now df = Except.ok items) :
    PriorityQueueDB.get_filtered_items blobs now df status
      = Except.ok (items.filter (statusFilterPred status)) := by
  rw [PriorityQueueDB.get_filtered_items, h]

/-- The items submitted by the admission loop are, in order, a sublist of the
candidate list the loop iterates over. -/
theorem admissionLoop_fst_sublist (client : TomtomClient) (now : Nat) :
    ∀ (l : List QueueItem) (st : DBState),
      ((admissionLoop client now st l).2.1.map (fun t => t.1)).Sublist l := by
  intro l
  induction l with
  | nil => intro st; simp [admissionLoop]
  | cons i rest ih =>
    intro st
    cases hs : QueueItem.submit client now i with
    | error m =>
      simp [admissionLoop, hs]
    | ok p =>
      obtain ⟨j, ev⟩ := p
      simp only [admissionLoop, hs, List.map_cons]
      exact List.Sublist.cons₂ i (ih _)

/-- A SUBMITTED projection means the error and completed timestamps are unset. -/
theorem status_submitted_fields (i : QueueItem)
    (h : i.get_status = QueueItemStatus.SUBMITTED) :
    i.error_timestamp = none ∧ i.completed_timestamp = none := by
  cases he : i.error_timestamp <;> cases hc : i.completed_timestamp <;>
    simp_all [QueueItem.get_status]

/-- `complete` on a SUBMITTED item whose status query answers succeeds: it sets
`completed_timestamp`, queries the status endpoint, sets the error timestamp
exactly when the remote state is not DONE, and erases the payload last. -/
theorem complete_on_submitted (client : TomtomClient) (now : Nat) (i : QueueItem)
    (st : TomtomResponseStatus)
    (h : i.get_status = QueueItemStatus.SUBMITTED)
    (hst : client.status i.tomtom_job_id = Except.ok st) :
    ∃ j ev, QueueItem.complete client now i = Except.ok (j, ev) ∧
      j.completed_timestamp = some now ∧
      (j.error_timestamp.isSome ↔ st.job_state ≠ TomtomJobState.DONE) ∧
      ev.getLast? = some CompleteEvent.erase_payload ∧
      CompleteEvent.query_status i.tomtom_job_id ∈ ev := by
  obtain ⟨hen, -⟩ := status_submitted_fields i h
  by_cases hD : st.job_state = TomtomJobState.DONE
  · have hred : QueueItem.complete client now i =
      Except.ok (Prod.mk { i with completed_timestamp := some now }
        [CompleteEvent.set_completed_ts now, CompleteEvent.query_status i.tomtom_job_id,
          CompleteEvent.erase_payload]) := by
      simp [QueueItem.complete, h, hst, hD]
    exact ⟨_, _, hred, rfl, by simp [hen, hD], rfl, by simp⟩
  · have hred : QueueItem.complete client now i =
      Except.ok (Prod.mk
        { i with completed_timestamp := some now, error_timestamp := some now }
        [CompleteEvent.set_completed_ts now, CompleteEvent.query_status i.tomtom_job_id,
          CompleteEvent.set_error_ts now, CompleteEvent.erase_payload]) := by
      simp [QueueItem.complete, h, hst, hD]
    exact ⟨_, _, hred, rfl, by simp [hD], rfl, by simp⟩

/-- The reconciliation loop cannot raise on a list of SUBMITTED items whose
status queries all answer, and completes every one of them. -/
theorem reconcileLoop_ok (client : TomtomClient) (now : Nat) :
    ∀ (l : List QueueItem), (∀ x ∈ l, x.get_status = QueueItemStatus.SUBMITTED) →
    (∀ x ∈ l, ∃ st, client.status x.tomtom_job_id = Except.ok st) →
    ∃ out, reconcileLoop client now l = Except.ok out ∧
      ∀ x ∈ l, ∃ j ev, QueueItem.complete client now x = Except.ok (j, ev)
        ∧ (x, j, ev) ∈ out := by
  intro l
  induction l with
  | nil => intro _ _; exact ⟨[], rfl, by simp⟩
  | cons i rest ih =>
    intro hall hsts
    obtain ⟨st, hst⟩ := hsts i (List.mem_cons_self i rest)
    obtain ⟨j, ev, hc, -⟩ :=
      complete_on_submitted client now i st (hall i (List.mem_cons_self i rest)) hst
    obtain ⟨out, hout, hmem⟩ := ih (fun x hx => hall x (List.mem_cons_of_mem i hx))
      (fun x hx => hsts x (List.mem_cons_of_mem i hx))
    refine ⟨(i, j, ev) :: out, by simp [reconcileLoop, hc, hout], ?_⟩
    intro x hx
    rcases List.mem_cons.mp hx with rfl | hxr
    · exact ⟨j, ev, hc, List.mem_cons_self _ _⟩
    · obtain ⟨j2, ev2, hc2, hm⟩ := hmem x hxr
      exact ⟨j2, ev2, hc2, List.mem_cons_of_mem _ hm⟩

/-- When the read and the search both succeed the tick runs its body. -/
theorem tick_eq_body (env : TickEnv) (now : Nat) (rows : List QueueItem)
    (sj : TomtomResponseSearchJobs) (hrows : env.readResult = Except.ok rows)
    (hsj : env.client.search_jobs = Except.ok sj) :
    tick env now = tickBody env.client env.blobs now rows sj := by
  simp [tick, hrows, hsj]

/-- With the cap reached, the tick body does nothing. -/
theorem tickBody_cap_reached (client : TomtomClient) (blobs : String → Bool)
    (now : Nat) (rows : List QueueItem) (sj : TomtomResponseSearchJobs)
    (h : ¬ sj.total_elements < N_CONCURRENT_JOB_IN_PROGRESS) :
    tickBody client blobs now rows sj = TickResult.done rows [] [] none := by
  rw [tickBody, if_neg h]

/-- The admission pass submits at most `k` items. -/
theorem tickAdmission_submitted_len (client : TomtomClient) (blobs : String → Bool)
    (now : Nat) (st1 : DBState) (k : Nat)
    (completed : List (QueueItem × QueueItem × List CompleteEvent)) :
    (tickAdmission client blobs now st1 k completed).submittedList.length ≤ k := by
  rw [tickAdmission]
  cases hgn : PriorityQueueDB.get_next blobs now st1.df k with
  | error m => simp [TickResult.submittedList]
  | ok nextItems =>
    simp only [TickResult.submittedList]
    have h1 := (admissionLoop_fst_sublist client now nextItems st1).length_le
    rw [List.length_map] at h1
    exact le_trans h1 (get_next_ok_length blobs now st1.df k nextItems hgn)

/-- The admission pass submits in the key order. -/
theorem tickAdmission_submitted_pairwise (client : TomtomClient) (blobs : String → Bool)
    (now : Nat) (st1 : DBState) (k : Nat)
    (completed : List (QueueItem × QueueItem × List CompleteEvent)) :
    ((tickAdmission client blobs now st1 k completed).submittedList.map (fun t => t.1)).Pairwise
      (fun a b => nextKeyLe a b = true) := by
  rw [tickAdmission]
  cases hgn : PriorityQueueDB.get_next blobs now st1.df k with
  | error m => simp [TickResult.submittedList]
  | ok nextItems =>
    simp only [TickResult.submittedList]
    exact List.Pairwise.sublist (admissionLoop_fst_sublist client now nextItems st1)
      (get_next_ok_sorted blobs now st1.df k nextItems hgn)

/-- The admission pass reports exactly the reconciliation changes. -/
theorem tickAdmission_completedList (client : TomtomClient) (blobs : String → Bool)
    (now : Nat) (st1 : DBState) (k : Nat)
    (completed : List (QueueItem × QueueItem × List CompleteEvent)) :
    (tickAdmission client blobs now st1 k completed).completedList = completed := by
  rw [tickAdmission]
  cases PriorityQueueDB.get_next blobs now st1.df k <;> simp [TickResult.completedList]

/-- The admission pass never ends in a crash. -/
theorem tickAdmission_ne_crashed (client : TomtomClient) (blobs : String → Bool)
    (now : Nat) (st1 : DBState) (k : Nat)
    (completed : List (QueueItem × QueueItem × List CompleteEvent)) (m : String) :
    tickAdmission client blobs now st1 k completed ≠ TickResult.crashed m := by
  rw [tickAdmission]
  cases PriorityQueueDB.get_next blobs now st1.df k <;> simp

/-- The tick body never ends in a crash: every raise inside it is caught. -/
theorem tickBody_ne_crashed (client : TomtomClient) (blobs : String → Bool)
    (now : Nat) (rows : List QueueItem) (sj : TomtomResponseSearchJobs) (m : String) :
    tickBody client blobs now rows sj ≠ TickResult.crashed m := by
  rw [tickBody]
  split
  · cases PriorityQueueDB.get_filtered_items blobs now rows [QueueItemStatus.SUBMITTED] with
    | error m2 => simp
    | ok submittedItems =>
      dsimp only
      cases reconcileLoop client now (shouldBeCompleteItems submittedItems sj) with
      | error m2 => simp
      | ok completed =>
        dsimp only
        exact tickAdmission_ne_crashed client blobs now _ _ completed m
  · simp

/-- Below the cap, the whole tick submits at most `K - n_active` items. -/
theorem tickBody_submitted_len (client : TomtomClient) (blobs : String → Bool)
    (now : Nat) (rows : List QueueItem) (sj : TomtomResponseSearchJobs)
    (hn : sj.total_elements < N_CONCURRENT_JOB_IN_PROGRESS) :
    (tickBody client blobs now rows sj).submittedList.length
      ≤ N_CONCURRENT_JOB_IN_PROGRESS - sj.total_elements := by
  rw [tickBody, if_pos hn]
  cases PriorityQueueDB.get_filtered_items blobs now rows [QueueItemStatus.SUBMITTED] with
  | error m => simp [TickResult.submittedList]
  | ok submittedItems =>
    dsimp only
    cases reconcileLoop client now (shouldBeCompleteItems submittedItems sj) with
    | error m => simp [TickResult.submittedList]
    | ok completed =>
      dsimp only
      exact tickAdmission_submitted_len client blobs now _ _ completed

/-- C1. Admission control: in a tick whose store read and remote search both
succeed, if the remote active-job count is at least the cap `K = 5`, the tick
ends with no reconciliation, no submissions and no caught error (so no
`submitted_ts` is set on any item); and in every tick the number of new
submissions is bounded so that `n_active + new_submissions ≤ K` whenever
`n_active < K`. -/
theorem daemon_admission_cap (env : TickEnv) (now : Nat) (rows : List QueueItem)
    (sj : TomtomResponseSearchJobs)
    (hrows : env.readResult = Except.ok rows)
    (hsj : env.client.search_jobs = Except.ok sj) :
    (N_CONCURRENT_JOB_IN_PROGRESS ≤ sj.total_elements →
      tick env now = TickResult.done rows [] [] none) ∧
    (sj.total_elements + (tick env now).submittedList.length
        ≤ N_CONCURRENT_JOB_IN_PROGRESS
      ∨ N_CONCURRENT_JOB_IN_PROGRESS ≤ sj.total_elements) := by
  rw [tick_eq_body env now rows sj hrows hsj]
  by_cases hn : sj.total_elements < N_CONCURRENT_JOB_IN_PROGRESS
  · refine ⟨fun hK => absurd hn (Nat.not_lt.mpr hK), Or.inl ?_⟩
    have hlen := tickBody_submitted_len env.client env.blobs now rows sj hn
    calc sj.total_elements
          + (tickBody env.client env.blobs now rows sj).submittedList.length
        ≤ sj.total_elements + (N_CONCURRENT_JOB_IN_PROGRESS - sj.total_elements) :=
          Nat.add_le_add_left hlen _
      _ = N_CONCURRENT_JOB_IN_PROGRESS := Nat.add_sub_cancel' (Nat.le_of_lt hn)
  · exact ⟨fun _ => tickBody_cap_reached env.client env.blobs now rows sj hn,
      Or.inr (Nat.not_lt.mp hn)⟩

/-- An environment whose store read succeeds on an empty table, every payload
blob present, and whose remote already reports five active jobs. -/
def envOk : TickEnv :=
  { client := clientDummy, readResult := Except.ok [], blobs := fun _ => true }

/-- Witness for `daemon_admission_cap`: with five remote jobs active, the tick
does nothing. -/
theorem daemon_admission_cap_witness :
    (N_CONCURRENT_JOB_IN_PROGRESS ≤ (TomtomResponseSearchJobs.mk [] 5).total_elements →
      tick envOk 0 = TickResult.done [] [] [] none) ∧
    ((TomtomResponseSearchJobs.mk [] 5).total_elements
        + (tick envOk 0).submittedList.length ≤ N_CONCURRENT_JOB_IN_PROGRESS
      ∨ N_CONCURRENT_JOB_IN_PROGRESS ≤ (TomtomResponseSearchJobs.mk [] 5).total_elements) :=
  daemon_admission_cap envOk 0 [] (TomtomResponseSearchJobs.mk [] 5) rfl rfl

/-- The route item as `get_next` reconstructs it when its payload blob is
missing: payload `None` and `error_timestamp` set by `store_payload`. -/
def itemRouteNoBlob : QueueItem :=
  { uid := "r1", name := "route", report_type := "TomtomRouteJob"
    payload := none, priority := 5
    created_timestamp := 0, updated_timestamp := none, submitted_timestamp := none
    completed_timestamp := none, cancelled_timestamp := none, error_timestamp := some 5
    tomtom_job_id := none }

/-- C2 (counterexample). `next(1)` on a store holding a single waiting route
row whose payload blob is missing returns an item in HAS_ERROR status, not
IS_WAITING (the reconstruction calls `error()`); and on a store holding a
waiting traffic-density row, `next(1)` raises instead of returning. -/
theorem get_next_reconstruction_counterexample :
    PriorityQueueDB.get_next (fun _ => false) 5 [itemRoute] 1
      = Except.ok [itemRouteNoBlob] ∧
    itemRouteNoBlob.get_status = QueueItemStatus.HAS_ERROR ∧
    PriorityQueueDB.get_next (fun _ => true) 5 [itemDensity] 1
      = Except.error "Unknown report type." := by
  refine ⟨?_, rfl, ?_⟩
  · simp [PriorityQueueDB.get_next, nextRows, reconstructItems, QueueItem.from_dict,
      classOfReportType, itemRoute, itemRouteNoBlob, QueueItem.get_status,
      List.mergeSort_singleton, pyClassName]
  · simp [PriorityQueueDB.get_next, nextRows, reconstructItems, QueueItem.from_dict,
      classOfReportType, itemDensity, List.mergeSort_singleton]

/-- C2 (amended). When `next(n)` returns (its row-to-item reconstruction can
raise on unknown report types, see the counterexample), it returns at most `n`
items, ordered by priority descending and, among equal priorities, by
`created_timestamp` ascending; each returned item projects IS_WAITING when its
payload blob exists, and HAS_ERROR when the blob is missing (the
reconstruction marks it through `store_payload`). Items submitted within a
single daemon tick are submitted in that same order (they form an
order-preserving sublist of a `get_next` result). -/
theorem get_next_amended_spec :
    (∀ (blobs : String → Bool) (now : Nat) (df : List QueueItem) (n : Nat)
        (out : List QueueItem),
      PriorityQueueDB.get_next blobs now df n = Except.ok out →
        out.length ≤ n ∧
        (∀ i ∈ out, i.get_status
          = (if blobs i.uid then QueueItemStatus.IS_WAITING
              else QueueItemStatus.HAS_ERROR)) ∧
        out.Pairwise (fun a b => nextKeyLe a b = true)) ∧
    (∀ (env : TickEnv) (now : Nat),
      ((tick env now).submittedList.map (fun t => t.1)).Pairwise
        (fun a b => nextKeyLe a b = true)) := by
  refine ⟨fun blobs now df n out h =>
    ⟨get_next_ok_length blobs now df n out h, get_next_ok_status blobs now df n out h,
      get_next_ok_sorted blobs now df n out h⟩, ?_⟩
  intro env now
  cases hr : env.readResult with
  | error m => simp [tick, hr, TickResult.submittedList]
  | ok rows =>
    cases hsj : env.client.search_jobs with
    | error m => simp [tick, hr, hsj, TickResult.submittedList]
    | ok sj =>
      rw [tick_eq_body env now rows sj hr hsj]
      by_cases hn : sj.total_elements < N_CONCURRENT_JOB_IN_PROGRESS
      · rw [tickBody, if_pos hn]
        cases PriorityQueueDB.get_filtered_items env.blobs now rows
            [QueueItemStatus.SUBMITTED] with
        | error m => simp [TickResult.submittedList]
        | ok submittedItems =>
          dsimp only
          cases reconcileLoop env.client now (shouldBeCompleteItems submittedItems sj) with
          | error m => simp [TickResult.submittedList]
          | ok completed =>
            dsimp only
            exact tickAdmission_submitted_pairwise env.client env.blobs now _ _ completed
      · rw [tickBody_cap_reached env.client env.blobs now rows sj hn]
        simp [TickResult.submittedList]

/-- Witness for `get_next_amended_spec`: one waiting item whose blob exists,
asked for one. -/
theorem get_next_amended_spec_witness :
    ([itemRoute] : List QueueItem).length ≤ 1 ∧
    itemRoute.get_status
      = (if (fun (_ : String) => true) itemRoute.uid then QueueItemStatus.IS_WAITING
          else QueueItemStatus.HAS_ERROR) ∧
    ([itemRoute] : List QueueItem).Pairwise (fun a b => nextKeyLe a b = true) ∧
    ((tick envOk 0).submittedList.map (fun t => t.1)).Pairwise
      (fun a b => nextKeyLe a b = true) := by
  have hok : PriorityQueueDB.get_next (fun _ => true) 0 [itemRoute] 1
      = Except.ok [itemRoute] := by
    simp [PriorityQueueDB.get_next, nextRows, reconstructItems, QueueItem.from_dict,
      classOfReportType, itemRoute, List.mergeSort_singleton, pyClassName]
  obtain ⟨ha, hb, hc⟩ := get_next_amended_spec.1 (fun _ => true) 0 [itemRoute] 1 [itemRoute] hok
  exact ⟨ha, hb itemRoute (List.mem_cons_self _ _), hc, get_next_amended_spec.2 envOk 0⟩

/-- An environment whose store read fails. -/
def envReadFail : TickEnv :=
  { client := clientDummy, readResult := Except.error "database file unreadable"
    blobs := fun _ => true }

/-- C6 (counterexample). `db.read()` runs before the `try` block of the loop
body, so an error while re-loading the queue store from disk is not caught: it
escapes the loop and the daemon exits. -/
theorem tick_read_error_crashes :
    tick envReadFail 0 = TickResult.crashed "database file unreadable" := rfl

/-- C6 (amended). Once the store re-read has succeeded, every error of the
remaining tick steps — polling the remote active count, reconstruction,
reconciliation, admission — is caught by the catch-all, logged at critical
level and swallowed, and the loop proceeds to the next tick; in particular a
failing search ends the tick with the error merely recorded. An error in the
store re-read itself, however, escapes (see the counterexample). -/
theorem tick_body_errors_caught (env : TickEnv) (now : Nat) (rows : List QueueItem)
    (hrows : env.readResult = Except.ok rows) :
    (∀ m, tick env now ≠ TickResult.crashed m) ∧
    (∀ m, env.client.search_jobs = Except.error m →
      tick env now = TickResult.done rows [] [] (some m)) := by
  constructor
  · intro m
    cases hsj : env.client.search_jobs with
    | error m2 => simp [tick, hrows, hsj]
    | ok sj =>
      rw [tick_eq_body env now rows sj hrows hsj]
      exact tickBody_ne_crashed env.client env.blobs now rows sj m
  · intro m hm
    simp [tick, hrows, hm]

/-- A client whose search call fails with a network error. -/
def clientSearchFail : TomtomClient :=
  { post_job_route_analysis := fun _ => TomtomResponseAnalysis.mk "OK" ["dummy"] 1
    post_job_area_analysis := fun _ => TomtomResponseAnalysis.mk "OK" ["dummy"] 1
    status := fun _ => Except.ok (TomtomResponseStatus.mk 1 TomtomJobState.DONE)
    search_jobs := Except.error "net down" }

/-- An environment whose read succeeds but whose search fails. -/
def envSearchFail : TickEnv :=
  { client := clientSearchFail, readResult := Except.ok [], blobs := fun _ => true }

/-- Witness for `tick_body_errors_caught`: a failing search is caught and the
tick finishes instead of crashing. -/
theorem tick_body_errors_caught_witness :
    (tick envSearchFail 0 ≠ TickResult.crashed "net down") ∧
    tick envSearchFail 0 = TickResult.done [] [] [] (some "net down") :=
  ⟨(tick_body_errors_caught envSearchFail 0 [] rfl).1 "net down",
    (tick_body_errors_caught envSearchFail 0 [] rfl).2 "net down" rfl⟩

/-- An item submitted at instant 2 under remote job id 42. -/
def itemSubmitted42 : QueueItem :=
  { uid := "s1", name := "stale", report_type := "TomtomRouteJob"
    payload := some JobClass.TomtomRouteJob, priority := 5
    created_timestamp := 0, updated_timestamp := none, submitted_timestamp := some 2
    completed_timestamp := none, cancelled_timestamp := none, error_timestamp := none
    tomtom_job_id := some 42 }

/-- A client whose remote reports no active jobs and whose status endpoint
raises (network failure) on every call. -/
def clientStatusFail : TomtomClient :=
  { post_job_route_analysis := fun _ => TomtomResponseAnalysis.mk "OK" ["dummy"] 1
    post_job_area_analysis := fun _ => TomtomResponseAnalysis.mk "OK" ["dummy"] 1
    status := fun _ => Except.error "status endpoint down"
    search_jobs := Except.ok (TomtomResponseSearchJobs.mk [] 0) }

/-- An environment holding one stale submitted item, with the status endpoint
down. -/
def envStatusFail : TickEnv :=
  { client := clientStatusFail, readResult := Except.ok [itemSubmitted42]
    blobs := fun _ => true }

/-- C4 (counterexample). A stale SUBMITTED item (remote job id 42, absent from
the empty active list) is not completed when the status endpoint raises: the
raise from `client.status` inside `complete` aborts the reconciliation loop
into the catch-all, and the tick ends with no completion recorded. -/
theorem tick_status_error_skips_completion :
    itemSubmitted42.get_status = QueueItemStatus.SUBMITTED ∧
    tomtomJobInProgressIds (TomtomResponseSearchJobs.mk [] 0) = [] ∧
    tick envStatusFail 3
      = TickResult.done [itemSubmitted42] [] [] (some "status endpoint down") ∧
    (tick envStatusFail 3).completedList = [] :=
  ⟨rfl, rfl, rfl, rfl⟩

/-- C4 (amended). In a tick where the read and the search succeed and
`n_active < K`, where every row of the table reconstructs (no unknown report
type), and where the status endpoint answers, every item whose reconstruction
the store projects as SUBMITTED (in particular its payload blob exists — a
missing blob turns the reconstruction to HAS_ERROR and drops it, see the
counterexample for the raising case) and whose `remote_job_id` is not among
the currently-active remote job ids has `complete` invoked on it: its
`completed_timestamp` is set to now, the status endpoint is queried for its
job id, the error timestamp is additionally set exactly when the reported
remote state is not DONE, and the payload blob is erased last. -/
theorem tick_reconciliation_amended (env : TickEnv) (now : Nat)
    (rows : List QueueItem) (sj : TomtomResponseSearchJobs) (i i2 : QueueItem)
    (hrows : env.readResult = Except.ok rows)
    (hsj : env.client.search_jobs = Except.ok sj)
    (hn : sj.total_elements < N_CONCURRENT_JOB_IN_PROGRESS)
    (hall : ∀ r ∈ rows, ∃ r2, QueueItem.from_dict (env.blobs r.uid) now r = Except.ok r2)
    (hstatok : ∀ oid, ∃ st, env.client.status oid = Except.ok st)
    (hi : i ∈ rows)
    (hrec : QueueItem.from_dict (env.blobs i.uid) now i = Except.ok i2)
    (hstat : i2.get_status = QueueItemStatus.SUBMITTED)
    (hid : ∀ a ∈ tomtomJobInProgressIds sj, i2.tomtom_job_id ≠ some a) :
    ∃ j ev st, env.client.status i2.tomtom_job_id = Except.ok st ∧
      QueueItem.complete env.client now i2 = Except.ok (j, ev) ∧
      (i2, j, ev) ∈ (tick env now).completedList ∧
      j.completed_timestamp = some now ∧
      (j.error_timestamp.isSome ↔ st.job_state ≠ TomtomJobState.DONE) ∧
      ev.getLast? = some CompleteEvent.erase_payload ∧
      CompleteEvent.query_status i2.tomtom_job_id ∈ ev := by
  obtain ⟨items, hitems⟩ := reconstructItems_ok_of_all env.blobs now rows hall
  have hfa := reconstructItems_forall₂ env.blobs now rows items hitems
  obtain ⟨y, hy, hyr⟩ := forall₂_mem_left hfa i hi
  have hy2 : i2 = y := by
    rw [hrec] at hyr
    exact Except.ok.inj hyr
  subst hy2
  have hmemf : i2 ∈ items.filter (statusFilterPred [QueueItemStatus.SUBMITTED]) :=
    List.mem_filter.mpr ⟨hy, by simp [statusFilterPred, hstat]⟩
  have hmemSC : i2 ∈ shouldBeCompleteItems
      (items.filter (statusFilterPred [QueueItemStatus.SUBMITTED])) sj := by
    rw [shouldBeCompleteItems]
    refine List.mem_filter.mpr ⟨hmemf, ?_⟩
    simp only [Bool.not_eq_true', List.any_eq_false, decide_eq_false_iff_not]
    simpa using hid
  have hallSC : ∀ x ∈ shouldBeCompleteItems
      (items.filter (statusFilterPred [QueueItemStatus.SUBMITTED])) sj,
      x.get_status = QueueItemStatus.SUBMITTED := by
    intro x hx
    rw [shouldBeCompleteItems] at hx
    have hx1 := (List.mem_filter.mp (List.mem_filter.mp hx).1).2
    simpa [statusFilterPred] using hx1
  obtain ⟨out, hout, hmemOut⟩ := reconcileLoop_ok env.client now
    (shouldBeCompleteItems (items.filter (statusFilterPred [QueueItemStatus.SUBMITTED])) sj)
    hallSC (fun x _ => hstatok x.tomtom_job_id)
  obtain ⟨j, ev, hc, hjmem⟩ := hmemOut i2 hmemSC
  obtain ⟨st, hst⟩ := hstatok i2.tomtom_job_id
  obtain ⟨j2, ev2, hc2, hcomp, hiff, hlast, hquery⟩ :=
    complete_on_submitted env.client now i2 st hstat hst
  obtain ⟨h1, h2⟩ := Prod.mk.inj (Except.ok.inj (hc.symm.trans hc2))
  subst h1
  subst h2
  have hcl : (tick env now).completedList = out := by
    rw [tick_eq_body env now rows sj hrows hsj]
    simp only [tickBody, hn, if_true,
      get_filtered_items_ok env.blobs now rows [QueueItemStatus.SUBMITTED] items hitems,
      hout, tickAdmission_completedList]
  refine ⟨j, ev, st, hst, hc, ?_, hcomp, hiff, hlast, hquery⟩
  rw [hcl]
  exact hjmem

/-- A client reporting no active jobs, every status DONE. -/
def clientIdle : TomtomClient :=
  { post_job_route_analysis := fun _ => TomtomResponseAnalysis.mk "OK" ["dummy"] 1
    post_job_area_analysis := fun _ => TomtomResponseAnalysis.mk "OK" ["dummy"] 1
    status := fun _ => Except.ok (TomtomResponseStatus.mk 42 TomtomJobState.DONE)
    search_jobs := Except.ok (TomtomResponseSearchJobs.mk [] 0) }

/-- An environment holding one stale submitted item, blobs present, idle
remote. -/
def envRecon : TickEnv :=
  { client := clientIdle, readResult := Except.ok [itemSubmitted42]
    blobs := fun _ => true }

/-- Witness for `tick_reconciliation_amended`: the stale item with remote job
id 42, absent from the active list, is completed by the tick. -/
theorem tick_reconciliation_amended_witness :
    ∃ j ev st, clientIdle.status itemSubmitted42.tomtom_job_id = Except.ok st ∧
      QueueItem.complete clientIdle 3 itemSubmitted42 = Except.ok (j, ev) ∧
      (itemSubmitted42, j, ev) ∈ (tick envRecon 3).completedList ∧
      j.completed_timestamp = some 3 ∧
      (j.error_timestamp.isSome ↔ st.job_state ≠ TomtomJobState.DONE) ∧
      ev.getLast? = some CompleteEvent.erase_payload ∧
      CompleteEvent.query_status itemSubmitted42.tomtom_job_id ∈ ev :=
  tick_reconciliation_amended envRecon 3 [itemSubmitted42]
    (TomtomResponseSearchJobs.mk [] 0) itemSubmitted42 itemSubmitted42 rfl rfl
    (by decide)
    (by intro r hr
        rw [List.mem_singleton] at hr
        subst hr
        exact ⟨itemSubmitted42, rfl⟩)
    (fun oid => ⟨TomtomResponseStatus.mk 42 TomtomJobState.DONE, rfl⟩)
    (List.mem_cons_self _ _) rfl rfl
    (by intro a ha; simp [tomtomJobInProgressIds] at ha)
